import Mathlib

/-!
Verification development for the `numpad_driver` repository.

The repository turns a laptop touchpad into a virtual numeric keypad:

* `src/layout.rs` — `Layout::get_item` resolves a coordinate to an optional key,
  and `default_numpad_layout` builds the concrete keypad geometry;
* `src/dev.rs` — `NumberPad` holds the touch-classification state machine:
  `handle_touchpad_event` consumes position updates, finger up/down transitions
  and `MSC_TIMESTAMP` ticks, and drives grab/ungrab of the physical device, the
  key simulator and the numpad light;
* `src/numpad_light.rs` — `NumpadLight::set_brightness` validates the level
  before writing a command frame to the i2c bus;
* `src/key_simulation.rs` — `keys_down` / `keys_up` / `keys_press` inject key
  events (`keys_press` is `keys_down` followed by `keys_up`).

The shallow embedding below mirrors those functions over `Nat`/`Int` state,
with the externally visible side effects (grab, ungrab, key events, light
commands) collected in an explicit effect list.  `Instant` values are embedded
as `Nat` millisecond timestamps carried on the events that sample the clock;
`Instant - Instant` saturates at zero exactly as `Nat` subtraction does.
-/

/-- The logical keys used by the keypad layout (the subset of `EV_KEY` that
`default_numpad_layout` and `key_simulation.rs` use). -/
inductive EvKey where
  | KEY_NUMLOCK
  | KEY_BACKSPACE
  | KEY_ENTER
  | KEY_SLASH
  | KEY_KPASTERISK
  | KEY_MINUS
  | KEY_KPPLUS
  | KEY_DOT
  | KEY_0
  | KEY_1
  | KEY_2
  | KEY_3
  | KEY_4
  | KEY_5
  | KEY_6
  | KEY_7
  | KEY_8
  | KEY_9
  deriving DecidableEq, Repr, Inhabited

/-- Embeds `RowItem<T>` from `src/layout.rs`: one key cell, an inclusive x-range. -/
structure RowItem (T : Type) where
  left_x : Nat
  right_x : Nat
  item : T
  deriving DecidableEq, Repr

/-- Embeds `Row<T>` from `src/layout.rs`: a horizontal band of cells, an inclusive
y-range. -/
structure Row (T : Type) where
  items : List (RowItem T)
  max_y : Nat
  min_y : Nat
  deriving DecidableEq, Repr

/-- Embeds `Layout<T>` from `src/layout.rs`. -/
structure Layout (T : Type) where
  rows : List (Row T)
  deriving DecidableEq, Repr

/-- The inner loop of `Layout::get_item`: first item of the row whose
`left_x ≤ x ≤ right_x`, in list order. -/
def findInRow {T : Type} (x : Nat) : List (RowItem T) → Option T
  | [] => none
  | it :: rest =>
    if it.left_x ≤ x ∧ x ≤ it.right_x then some it.item else findInRow x rest

/-- The outer loop of `Layout::get_item`: scan the rows in order; inside a row
whose y-band contains `y`, scan its items; keep scanning later rows when the
row has no item containing `x`. -/
def getItemRows {T : Type} (x y : Nat) : List (Row T) → Option T
  | [] => none
  | row :: rest =>
    if row.min_y ≤ y ∧ y ≤ row.max_y then
      match findInRow x row.items with
      | some t => some t
      | none => getItemRows x y rest
    else getItemRows x y rest

/-- Embeds `Layout::get_item` from `src/layout.rs`. -/
def Layout.get_item {T : Type} (l : Layout T) (x y : Nat) : Option T :=
  getItemRows x y l.rows

/-- Embeds `insert_next_key` from `default_numpad_layout`: append a cell starting
50 units after the previous cell's right edge. -/
def insert_next_key (vec : List (RowItem EvKey)) (right_x : Nat) (key : EvKey) :
    List (RowItem EvKey) :=
  vec ++ [{ left_x := (vec.getLastD ⟨0, 0, EvKey.KEY_NUMLOCK⟩).right_x + 50,
            right_x := right_x, item := key }]

/-- Embeds `insert_next_row` from `default_numpad_layout`: append a row 100 units
below the previous one, with the previous row's height. -/
def insert_next_row (vec : List (Row EvKey)) (items : List (RowItem EvKey)) :
    List (Row EvKey) :=
  vec ++ [{ items := items,
            max_y := (vec.getLastD ⟨[], 0, 0⟩).max_y + 100 + (vec.getLastD ⟨[], 0, 0⟩).max_y
                       - (vec.getLastD ⟨[], 0, 0⟩).min_y,
            min_y := (vec.getLastD ⟨[], 0, 0⟩).max_y + 100 }]

/-- Embeds `default_numpad_layout` from `src/layout.rs`. -/
def default_numpad_layout : Layout EvKey :=
  let items1 := insert_next_key (insert_next_key (insert_next_key (insert_next_key
    [{ left_x := 330, right_x := 860, item := EvKey.KEY_7 }]
    1600 EvKey.KEY_8) 2260 EvKey.KEY_9) 3030 EvKey.KEY_SLASH) 3750 EvKey.KEY_NUMLOCK
  let rows1 := [({ items := items1, min_y := 200, max_y := 680 } : Row EvKey)]
  let items2 := insert_next_key (insert_next_key (insert_next_key (insert_next_key
    [{ left_x := 330, right_x := 860, item := EvKey.KEY_4 }]
    1600 EvKey.KEY_5) 2260 EvKey.KEY_6) 3030 EvKey.KEY_KPASTERISK) 3750 EvKey.KEY_BACKSPACE
  let rows2 := insert_next_row rows1 items2
  let items3 := insert_next_key (insert_next_key (insert_next_key (insert_next_key
    [{ left_x := 330, right_x := 860, item := EvKey.KEY_1 }]
    1600 EvKey.KEY_2) 2260 EvKey.KEY_3) 3030 EvKey.KEY_MINUS) 3750 EvKey.KEY_ENTER
  let rows3 := insert_next_row rows2 items3
  let items4 := insert_next_key (insert_next_key (insert_next_key
    [{ left_x := 860, right_x := 1600, item := EvKey.KEY_0 }]
    2260 EvKey.KEY_DOT) 3030 EvKey.KEY_KPPLUS) 3750 EvKey.KEY_ENTER
  let rows4 := insert_next_row rows3 items4
  { rows := rows4 }

/-- Embeds `LastTouch` from `src/dev.rs`: snapshot taken at finger-down.  `time` is
the `Instant` embedded as a millisecond timestamp. -/
structure LastTouch where
  pos_x : Nat
  pos_y : Nat
  time : Nat
  key : Option EvKey
  deriving DecidableEq, Repr

/-- Embeds `NumpadState` from `src/dev.rs`. -/
structure NumpadState where
  pos_x : Nat
  pos_y : Nat
  last_touch : LastTouch
  is_active : Bool
  is_dragging : Bool
  is_lifted : Bool
  deriving DecidableEq, Repr

/-- Embeds `NumpadState::new`.  The `Instant::now()` taken at startup is embedded as
time 0. -/
def NumpadState.new : NumpadState :=
  { pos_x := 0
    pos_y := 0
    last_touch := { pos_x := 0, pos_y := 0, time := 0, key := none }
    is_active := false
    is_dragging := false
    is_lifted := true }

/-- The mutable fields of `NumberPad` from `src/dev.rs` that the event handler
touches.  `grabbed` models the grab mode of the `touchpad` device (set by
`touchpad.grab(Grab)` / `touchpad.grab(Ungrab)`); the `layout` field is always
`default_numpad_layout`, so it is inlined at its use sites. -/
structure NumberPad where
  state : NumpadState
  holding_key : Option EvKey
  brightness : Nat
  grabbed : Bool
  deriving DecidableEq, Repr

/-- Embeds `MAX_BRIGHTNESS` from `src/numpad_light.rs`. -/
def MAX_BRIGHTNESS : Nat := 7

/-- Initial `NumberPad` as built by `NumberPad::new`: fresh state, no held
key, brightness `MAX_BRIGHTNESS`, and the device not grabbed. -/
def NumberPad.init : NumberPad :=
  { state := NumpadState.new
    holding_key := none
    brightness := MAX_BRIGHTNESS
    grabbed := false }

/-- The externally visible side effects of the state machine: calls to
`touchpad.grab`, to the `KeySimulator` and to the `NumpadLight`.
`keys_press` in `src/key_simulation.rs` is `keys_down` followed by `keys_up`,
so a press appears as those two effects in order. -/
inductive Effect where
  | grab
  | ungrab
  | keysDown (keys : List EvKey)
  | keysUp (keys : List EvKey)
  | turnOn
  | turnOff
  | setBrightness (level : Nat)
  deriving DecidableEq, Repr

/-- The touchpad events `handle_touchpad_event` matches on.  `fingerDown` and
`tick` carry the value of `Instant::now()` at the moment the handler runs, as
a millisecond timestamp; `other` stands for every event code the handler
ignores. -/
inductive Event where
  | absX (v : Nat)
  | absY (v : Nat)
  | fingerDown (now : Nat)
  | fingerUp
  | tick (now : Nat)
  | other
  deriving DecidableEq, Repr

/-- Embeds `NumberPad::MIN_DRAG_DISTANCE` is `30.0`; the handler compares the
Euclidean distance of integer coordinates against it, which (because `f64`
represents these integers and their squares exactly and `sqrt` is correctly
rounded, `30.0` being representable) holds exactly when the squared distance
is at least `900`.  `dist2` is that squared distance. -/
def dist2 (x1 y1 x2 y2 : Nat) : Int :=
  ((x1 : Int) - (x2 : Int)) * ((x1 : Int) - (x2 : Int)) +
    ((y1 : Int) - (y2 : Int)) * ((y1 : Int) - (y2 : Int))

/-- Embeds `NumberPad::MIN_DRAG_DISTANCE` squared (`30.0 * 30.0`), see `dist2`. -/
def MIN_DRAG_DISTANCE_SQ : Int := 900

/-- Embeds `NumberPad::HOLD_DURATION` (250 ms) as a millisecond count. -/
def HOLD_DURATION : Nat := 250

/-- Embeds `NumberPad::stop_holding_key`: emit a key-up for the held key, if any, and
clear it. -/
def stop_holding_key (p : NumberPad) : NumberPad × List Effect :=
  match p.holding_key with
  | some key => ({ p with holding_key := none }, [Effect.keysUp [key]])
  | none => (p, [])

/-- Embeds `NumberPad::is_drag_down`: the contact moved to a larger y than where it
started. -/
def is_drag_down (p : NumberPad) : Bool :=
  p.state.pos_y > p.state.last_touch.pos_y

/-- Embeds `NumberPad::is_drag_up`: the contact moved to a smaller y than where it
started. -/
def is_drag_up (p : NumberPad) : Bool :=
  p.state.pos_y < p.state.last_touch.pos_y

/-- Embeds `NumberPad::lift` from `src/dev.rs`, called when the finger leaves the
touchpad. -/
def lift (p : NumberPad) : NumberPad × List Effect :=
  if p.state.is_dragging then
    let p1 : NumberPad := { p with state := { p.state with is_dragging := false } }
    if p1.state.is_active ∧ p1.state.last_touch.key = some EvKey.KEY_NUMLOCK then
      let adjusted : NumberPad × List Effect :=
        if is_drag_up p1 then
          if p1.brightness < MAX_BRIGHTNESS then
            ({ p1 with brightness := p1.brightness + 1 },
              [Effect.setBrightness (p1.brightness + 1)])
          else (p1, [])
        else if is_drag_down p1 then
          if p1.brightness > 0 then
            ({ p1 with brightness := p1.brightness - 1 },
              [Effect.setBrightness (p1.brightness - 1)])
          else (p1, [])
        else (p1, [])
      ({ adjusted.1 with grabbed := true }, adjusted.2 ++ [Effect.grab])
    else (p1, [])
  else if p.holding_key.isSome then
    stop_holding_key p
  else
    match default_numpad_layout.get_item p.state.pos_x p.state.pos_y with
    | some EvKey.KEY_NUMLOCK =>
      let p1 : NumberPad := { p with state := { p.state with is_active := ¬p.state.is_active } }
      if p1.state.is_active then (p1, [Effect.turnOn])
      else ({ p1 with grabbed := false }, [Effect.turnOff, Effect.ungrab])
    | some key =>
      if p.state.is_active then (p, [Effect.keysDown [key], Effect.keysUp [key]])
      else (p, [])
    | none => (p, [])

/-- Embeds `NumberPad::handle_touchpad_event` from `src/dev.rs`. -/
def handle_touchpad_event (p : NumberPad) (e : Event) : NumberPad × List Effect :=
  match e with
  | Event.absX v => ({ p with state := { p.state with pos_x := v } }, [])
  | Event.absY v => ({ p with state := { p.state with pos_y := v } }, [])
  | Event.fingerUp =>
    lift { p with state := { p.state with is_lifted := true } }
  | Event.fingerDown now =>
    if p.state.is_dragging then (p, [])
    else
      let p1 : NumberPad :=
        { p with state :=
          { p.state with
              last_touch :=
                { pos_x := p.state.pos_x
                  pos_y := p.state.pos_y
                  time := now
                  key := default_numpad_layout.get_item p.state.pos_x p.state.pos_y }
              is_lifted := false } }
      if p1.state.is_active ∧ p1.state.last_touch.key.isSome then
        ({ p1 with grabbed := true }, [Effect.grab])
      else (p1, [])
  | Event.tick now =>
    if p.state.is_lifted then (p, [])
    else if ¬p.state.is_dragging ∧
        dist2 p.state.pos_x p.state.pos_y p.state.last_touch.pos_x p.state.last_touch.pos_y
          ≥ MIN_DRAG_DISTANCE_SQ then
      let ungrabbed : NumberPad × List Effect :=
        if p.state.last_touch.key ≠ some EvKey.KEY_NUMLOCK then
          ({ p with grabbed := false }, [Effect.ungrab])
        else (p, [])
      let p1 : NumberPad :=
        { ungrabbed.1 with state := { ungrabbed.1.state with is_dragging := true } }
      let stopped := stop_holding_key p1
      (stopped.1, ungrabbed.2 ++ stopped.2)
    else if p.state.is_active ∧ ¬p.state.is_dragging ∧
        now - p.state.last_touch.time > HOLD_DURATION ∧ p.holding_key.isNone then
      match p.state.last_touch.key with
      | some key =>
        let p1 : NumberPad := { p with holding_key := some key }
        match key with
        | EvKey.KEY_NUMLOCK => (p1, [])
        | _ => (p1, [Effect.keysDown [key]])
      | none => (p, [])
    else (p, [])
  | Event.other => (p, [])

/-- Run a sequence of touchpad events through `handle_touchpad_event`, as the
event loop in `enter_input_loop` does, collecting all effects in order. -/
def runEvents (p : NumberPad) : List Event → NumberPad × List Effect
  | [] => (p, [])
  | e :: rest =>
    let step := handle_touchpad_event p e
    let tail := runEvents step.1 rest
    (tail.1, step.2 ++ tail.2)

/-- Embeds `BRIGHTNESS_OFFSET` from `src/numpad_light.rs`. -/
def BRIGHTNESS_OFFSET : Nat := 65

/-- Embeds `NumpadLight::write`: the 13-byte command frame written to the i2c bus,
whose only variable byte is `num` (a `u8`, hence the reduction mod 256). -/
def lightWrite (num : Nat) : List Nat :=
  [0x05, 0x00, 0x3d, 0x03, 0x06, 0x00, 0x07, 0x00, 0x0d, 0x14, 0x03, num % 256, 0xad]

/-- Outcome of a `NumpadLight` command in the embedding: either the write
happened, or the out-of-range validation error was raised first. -/
inductive LightResult where
  | ok
  | outOfRange
  deriving DecidableEq, Repr

/-- Embeds `NumpadLight::set_brightness`: the list of bus frames written (in order)
together with the outcome.  The source returns the error before `write` is
ever called, so the out-of-range case writes no frame. -/
def set_brightness (brightness_num : Nat) : List (List Nat) × LightResult :=
  if brightness_num > MAX_BRIGHTNESS then ([], LightResult.outOfRange)
  else ([lightWrite (brightness_num + BRIGHTNESS_OFFSET)], LightResult.ok)

example : default_numpad_layout.get_item 400 400 = some EvKey.KEY_7 := by decide
example : default_numpad_layout.get_item 3100 400 = some EvKey.KEY_NUMLOCK := by decide
example : default_numpad_layout.get_item 1000 1000 = some EvKey.KEY_5 := by decide
example : default_numpad_layout.get_item 0 0 = none := by decide

/-- C9: `setBrightness(level)` errors out of range for every
`level > MAX_BRIGHTNESS`, before any bus frame is written; for every
`level ≤ MAX_BRIGHTNESS` it proceeds to the single bus write of the
brightness command frame. -/
theorem claim_C9_set_brightness (level : Nat) :
    (level > MAX_BRIGHTNESS → set_brightness level = ([], LightResult.outOfRange)) ∧
    (level ≤ MAX_BRIGHTNESS →
      set_brightness level = ([lightWrite (level + BRIGHTNESS_OFFSET)], LightResult.ok)) := by
  constructor
  · intro h
    simp [set_brightness, h]
  · intro h
    simp [set_brightness, Nat.not_lt.mpr h]

/-- Witness for C9 at levels 8 (out of range) and 3 (valid). -/
theorem claim_C9_set_brightness_witness :
    set_brightness 8 = ([], LightResult.outOfRange) ∧
    set_brightness 3 = ([lightWrite (3 + BRIGHTNESS_OFFSET)], LightResult.ok) :=
  ⟨(claim_C9_set_brightness 8).1 (by decide), (claim_C9_set_brightness 3).2 (by decide)⟩

/-- C10: a `MSC_TIMESTAMP` tick arriving while `is_lifted` is true is a
complete no-op: the state is returned unchanged and no effect (key event,
light command, grab or ungrab) is produced. -/
theorem claim_C10_tick_while_lifted (p : NumberPad) (now : Nat)
    (h : p.state.is_lifted = true) :
    handle_touchpad_event p (Event.tick now) = (p, []) := by
  simp [handle_touchpad_event, h]

/-- Witness for C10 at the initial state (which is lifted). -/
theorem claim_C10_tick_while_lifted_witness :
    handle_touchpad_event NumberPad.init (Event.tick 0) = (NumberPad.init, []) :=
  claim_C10_tick_while_lifted NumberPad.init 0 rfl

/-- C7: on a tick while touching (not lifted) and not already dragging, a
squared distance between `pos` and `last_touch.pos` exactly equal to the
squared drag threshold (distance exactly 30 units) classifies the contact as
a drag: the source comparison is `>=`, inclusive of the boundary. -/
theorem claim_C7_drag_boundary_inclusive (p : NumberPad) (now : Nat)
    (h1 : p.state.is_lifted = false) (h2 : p.state.is_dragging = false)
    (h3 : dist2 p.state.pos_x p.state.pos_y p.state.last_touch.pos_x p.state.last_touch.pos_y
      = MIN_DRAG_DISTANCE_SQ) :
    (handle_touchpad_event p (Event.tick now)).1.state.is_dragging = true := by
  simp only [handle_touchpad_event, h1, h2, h3]
  simp [stop_holding_key]
  split <;> split <;> simp

/-- A touching state sitting exactly 30 units away from the contact start,
used to witness the drag boundary. -/
def dragBoundaryPad : NumberPad :=
  { state :=
    { pos_x := 430
      pos_y := 400
      last_touch := { pos_x := 400, pos_y := 400, time := 0, key := some EvKey.KEY_7 }
      is_active := true
      is_dragging := false
      is_lifted := false }
    holding_key := none
    brightness := 7
    grabbed := true }

/-- Witness for C7: from `dragBoundaryPad`, whose contact moved exactly 30
units in x, a tick enters the dragging state. -/
theorem claim_C7_drag_boundary_inclusive_witness :
    (handle_touchpad_event dragBoundaryPad (Event.tick 10)).1.state.is_dragging = true :=
  claim_C7_drag_boundary_inclusive dragBoundaryPad 10 rfl rfl (by decide)

/-- Mutual exclusion of dragging and holding, as a boolean predicate on the
embedded `NumberPad` state. -/
def dragHoldExclusive (p : NumberPad) : Bool :=
  !(p.state.is_dragging && p.holding_key.isSome)

/-- One step of `handle_touchpad_event` preserves the drag/hold mutual
exclusion: entering a drag routes through `stop_holding_key`, and a hold can
only start while not dragging. -/
theorem dragHoldExclusive_step (p : NumberPad) (e : Event)
    (h : dragHoldExclusive p = true) :
    dragHoldExclusive (handle_touchpad_event p e).1 = true := by
  cases e with
  | absX v => simpa [handle_touchpad_event, dragHoldExclusive] using h
  | absY v => simpa [handle_touchpad_event, dragHoldExclusive] using h
  | other => simpa [handle_touchpad_event] using h
  | fingerUp =>
    simp only [handle_touchpad_event, lift, stop_holding_key]
    split
    · split
      · repeat' split
        all_goals simp [dragHoldExclusive]
      · simp [dragHoldExclusive]
    · split
      · split
        · simp [dragHoldExclusive]
        · simp_all [dragHoldExclusive]
      · repeat' split
        all_goals simp_all [dragHoldExclusive]
  | fingerDown now =>
    simp only [handle_touchpad_event]
    split
    · exact h
    · split <;> simp_all [dragHoldExclusive]
  | tick now =>
    simp only [handle_touchpad_event, stop_holding_key]
    split
    · exact h
    · split
      · split
        · simp [dragHoldExclusive]
        · rename_i heq
          split at heq <;> simp_all [dragHoldExclusive]
      · split
        · split
          · split <;> simp_all [dragHoldExclusive]
          · exact h
        · exact h

/-- Running any event list preserves the drag/hold mutual exclusion. -/
theorem dragHoldExclusive_run (evs : List Event) :
    ∀ p : NumberPad, dragHoldExclusive p = true →
      dragHoldExclusive (runEvents p evs).1 = true := by
  induction evs with
  | nil => intro p h; simpa [runEvents] using h
  | cons e rest ih =>
    intro p h
    simpa [runEvents] using ih _ (dragHoldExclusive_step p e h)

/-- A keypad region as the spec describes it: an axis-aligned rectangle (an
inclusive y-band and an inclusive x-range) mapping to one key. -/
structure Region (T : Type) where
  min_y : Nat
  max_y : Nat
  left_x : Nat
  right_x : Nat
  item : T
  deriving DecidableEq, Repr

/-- The regions of one row, in the row's item order. -/
def Row.regions {T : Type} (r : Row T) : List (Region T) :=
  r.items.map fun it =>
    { min_y := r.min_y, max_y := r.max_y, left_x := it.left_x, right_x := it.right_x,
      item := it.item }

/-- All regions of a layout, ordered by vertical band (row order) and then by
horizontal range (item order within the row). -/
def Layout.regions {T : Type} (l : Layout T) : List (Region T) :=
  (l.rows.map Row.regions).flatten

/-- Modelled from the spec: a point lies inside a region when the region's
y-band and x-range both contain it. -/
def Region.containsPt {T : Type} (x y : Nat) (r : Region T) : Bool :=
  decide (r.min_y ≤ y) && decide (y ≤ r.max_y) &&
    decide (r.left_x ≤ x) && decide (x ≤ r.right_x)

theorem find?_append {α : Type} (q : α → Bool) :
    ∀ l1 l2 : List α, List.find? q (l1 ++ l2) =
      match List.find? q l1 with
      | some a => some a
      | none => List.find? q l2 := by
  intro l1 l2
  induction l1 with
  | nil => simp
  | cons a rest ih =>
    by_cases hq : q a = true
    · simp [List.find?, hq]
    · simp only [List.cons_append, List.find?, hq]
      simpa [hq] using ih

theorem find?_row_of_band {T : Type} (x y : Nat) (my My : Nat)
    (h1 : my ≤ y) (h2 : y ≤ My) :
    ∀ items : List (RowItem T),
      Option.map Region.item
        (List.find? (Region.containsPt x y)
          (items.map fun it =>
            ({ min_y := my, max_y := My, left_x := it.left_x, right_x := it.right_x,
               item := it.item } : Region T))) = findInRow x items := by
  intro items
  induction items with
  | nil => simp [findInRow]
  | cons it rest ih =>
    by_cases hx : it.left_x ≤ x ∧ x ≤ it.right_x
    · simp [List.find?, Region.containsPt, findInRow, h1, h2, hx.1, hx.2]
    · rw [Decidable.not_and_iff_or_not] at hx
      rcases hx with hx | hx
      · simp only [List.map_cons, List.find?, Region.containsPt]
        simp only [findInRow]
        rw [if_neg (by intro hc; exact hx hc.1)]
        simpa [Region.containsPt, hx] using ih
      · simp only [List.map_cons, List.find?, Region.containsPt]
        simp only [findInRow]
        rw [if_neg (by intro hc; exact hx hc.2)]
        simpa [Region.containsPt, hx] using ih

theorem find?_row_of_no_band {T : Type} (x y : Nat) (my My : Nat)
    (h : ¬(my ≤ y ∧ y ≤ My)) :
    ∀ items : List (RowItem T),
      List.find? (Region.containsPt x y)
        (items.map fun it =>
          ({ min_y := my, max_y := My, left_x := it.left_x, right_x := it.right_x,
             item := it.item } : Region T)) = none := by
  intro items
  rw [Decidable.not_and_iff_or_not] at h
  induction items with
  | nil => simp
  | cons it rest ih =>
    rcases h with h | h <;>
      · simp only [List.map_cons, List.find?, Region.containsPt]
        simp [h, ih]

/-- C8: `Layout::get_item` is a pure function of its arguments and computes
exactly the first region, in vertical-band-then-horizontal-range order,
containing the point — `some` of that region's key when one exists, `none`
when the point lies outside every region. -/
theorem claim_C8_get_item_first_region {T : Type} (l : Layout T) (x y : Nat) :
    l.get_item x y =
      Option.map Region.item (List.find? (Region.containsPt x y) l.regions) := by
  show getItemRows x y l.rows =
    Option.map Region.item
      (List.find? (Region.containsPt x y) ((l.rows.map Row.regions).flatten))
  induction l.rows with
  | nil => simp [getItemRows, Layout.regions]
  | cons row rest ih =>
    simp only [List.map_cons, List.flatten, getItemRows]
    rw [find?_append]
    by_cases hband : row.min_y ≤ y ∧ y ≤ row.max_y
    · rw [if_pos hband]
      have hrow := find?_row_of_band (T := T) x y row.min_y row.max_y hband.1 hband.2 row.items
      cases hfind : List.find? (Region.containsPt x y) (Row.regions row) with
      | some reg =>
        rw [Row.regions] at hfind
        rw [hfind] at hrow
        simp at hrow
        rw [← hrow]
        simp
      | none =>
        rw [Row.regions] at hfind
        rw [hfind] at hrow
        simp at hrow
        rw [← hrow]
        simpa using ih
    · rw [if_neg hband]
      have hrow := find?_row_of_no_band (T := T) x y row.min_y row.max_y hband row.items
      rw [Row.regions] at *
      rw [hrow]
      simpa using ih

/-- Event sequence: a tap on the Toggle Key region activates the numpad, then
a contact starts on the Toggle Key region and the finger moves 100 units in y,
and a tick classifies the contact as a (brightness) drag. -/
def brightnessDragTrace : List Event :=
  [Event.absX 3100, Event.absY 400, Event.fingerDown 0, Event.fingerUp,
   Event.fingerDown 1000, Event.absY 500, Event.tick 1100]

/-- The reachable mid-brightness-drag state after `brightnessDragTrace`. -/
def brightnessDragPad : NumberPad :=
  (runEvents NumberPad.init brightnessDragTrace).1

/-- Counterexample to C1: `brightnessDragPad` is a reachable Brightness-Drag
state (dragging, active, candidate key is the Toggle Key) whose current `pos.y`
(500) is below `last_touch.pos_y` (400), so the claim demands that the next
tick decrement `brightness` from 7 to 6 and push the new level; the code's
tick leaves the state untouched and pushes nothing. -/
theorem claim_C1_counterexample :
    brightnessDragPad.state.is_dragging = true ∧
    brightnessDragPad.state.is_active = true ∧
    brightnessDragPad.state.last_touch.key = some EvKey.KEY_NUMLOCK ∧
    brightnessDragPad.state.pos_y > brightnessDragPad.state.last_touch.pos_y ∧
    brightnessDragPad.brightness = 7 ∧
    handle_touchpad_event brightnessDragPad (Event.tick 1200) = (brightnessDragPad, []) := by
  decide

/-- C1 amended: during a drag (Brightness-Drag included) ticks change nothing
at all — brightness is not adjusted per tick.  The brightness adjustment
happens exactly once, at lift: ending a drag while active with the Toggle Key
as candidate key compares the final `pos.y` with `lastTouch.pos.y`, increments
(`pos.y` above, i.e. smaller) or decrements (`pos.y` below, i.e. larger)
`brightness` by one, saturating at `MAX_BRIGHTNESS` and at 0, pushes the new
level only when it changed, and re-asserts the grab. -/
theorem claim_C1_amended_brightness_once_at_lift :
    (∀ (p : NumberPad) (now : Nat),
      p.state.is_lifted = false → p.state.is_dragging = true →
        handle_touchpad_event p (Event.tick now) = (p, [])) ∧
    (∀ p : NumberPad,
      p.state.is_dragging = true → p.state.is_active = true →
      p.state.last_touch.key = some EvKey.KEY_NUMLOCK →
        handle_touchpad_event p Event.fingerUp =
          (if p.state.pos_y < p.state.last_touch.pos_y then
            if p.brightness < MAX_BRIGHTNESS then
              ({ p with
                  state := { p.state with is_dragging := false, is_lifted := true }
                  brightness := p.brightness + 1
                  grabbed := true },
                [Effect.setBrightness (p.brightness + 1), Effect.grab])
            else
              ({ p with
                  state := { p.state with is_dragging := false, is_lifted := true }
                  grabbed := true }, [Effect.grab])
          else if p.state.pos_y > p.state.last_touch.pos_y then
            if p.brightness > 0 then
              ({ p with
                  state := { p.state with is_dragging := false, is_lifted := true }
                  brightness := p.brightness - 1
                  grabbed := true },
                [Effect.setBrightness (p.brightness - 1), Effect.grab])
            else
              ({ p with
                  state := { p.state with is_dragging := false, is_lifted := true }
                  grabbed := true }, [Effect.grab])
          else
            ({ p with
                state := { p.state with is_dragging := false, is_lifted := true }
                grabbed := true }, [Effect.grab]))) := by
  constructor
  · intro p now h1 h2
    simp [handle_touchpad_event, h1, h2]
  · intro p h1 h2 h3
    simp only [handle_touchpad_event, lift, is_drag_up, is_drag_down, h1, h2, h3]
    simp only [decide_eq_true_eq, Bool.and_eq_true, eq_self_iff_true, and_true, if_true]
    repeat' split
    all_goals simp_all

/-- Witness for the amended C1: at the reachable state `brightnessDragPad` a
tick is inert, and the lift decrements brightness from 7 to 6, pushes level 6
once and re-asserts the grab. -/
theorem claim_C1_amended_brightness_once_at_lift_witness :
    handle_touchpad_event brightnessDragPad (Event.tick 1200) = (brightnessDragPad, []) ∧
    handle_touchpad_event brightnessDragPad Event.fingerUp =
      ({ brightnessDragPad with
          state := { brightnessDragPad.state with is_dragging := false, is_lifted := true }
          brightness := 6
          grabbed := true },
        [Effect.setBrightness 6, Effect.grab]) := by
  constructor
  · exact claim_C1_amended_brightness_once_at_lift.1 brightnessDragPad 1200 rfl rfl
  · have h := claim_C1_amended_brightness_once_at_lift.2 brightnessDragPad rfl rfl rfl
    rw [h]
    decide

/-- Event sequence: a tap on the Toggle Key region activates the numpad, then
a plain tap on digit key 7 (contact down, two ticks with no movement and less
than 250 ms elapsed, lift). -/
def plainTapTrace : List Event :=
  [Event.absX 3100, Event.absY 400, Event.fingerDown 0, Event.fingerUp,
   Event.absX 400, Event.absY 400, Event.fingerDown 1000,
   Event.tick 1100, Event.tick 1200, Event.fingerUp]

/-- Counterexample to C2: after `plainTapTrace` the contact has ended
(`is_lifted`), exactly one `keys_press` of key 7 was emitted and no ungrab
ever occurred — the device is still grabbed, contradicting the claimed
invariant that it is ungrabbed once no contact is in progress. -/
theorem claim_C2_counterexample :
    (runEvents NumberPad.init plainTapTrace).1.state.is_lifted = true ∧
    (runEvents NumberPad.init plainTapTrace).1.state.is_active = true ∧
    (runEvents NumberPad.init plainTapTrace).1.state.is_dragging = false ∧
    (runEvents NumberPad.init plainTapTrace).1.grabbed = true ∧
    (runEvents NumberPad.init plainTapTrace).2 =
      [Effect.turnOn, Effect.grab,
       Effect.keysDown [EvKey.KEY_7], Effect.keysUp [EvKey.KEY_7]] := by
  decide

/-- C2 amended, part one of three: lifting a plain tap (no drag, no hold) on
a non-Toggle key while active emits exactly one press (down then up) of that
key and changes nothing but `is_lifted` — in particular the grab acquired at
contact start is retained after the contact ends.  Parts two and three: the
handler emits an ungrab only when a tick reclassifies a contact whose
candidate key is not the Toggle Key as a drag, or when a Toggle-Key tap at
lift deactivates the numpad; and it emits a grab only at contact start while
active on a defined key, or at the lift of a drag while active with the
Toggle Key as candidate. -/
theorem claim_C2_amended_grab_retained :
    (∀ (p : NumberPad) (k : EvKey),
      p.state.is_dragging = false → p.holding_key = none →
      p.state.is_active = true → p.grabbed = true →
      default_numpad_layout.get_item p.state.pos_x p.state.pos_y = some k →
      k ≠ EvKey.KEY_NUMLOCK →
        handle_touchpad_event p Event.fingerUp =
          ({ p with state := { p.state with is_lifted := true } },
            [Effect.keysDown [k], Effect.keysUp [k]]) ∧
        (handle_touchpad_event p Event.fingerUp).1.grabbed = true) ∧
    (∀ (q : NumberPad) (e : Event), Effect.ungrab ∈ (handle_touchpad_event q e).2 →
      ((∃ now, e = Event.tick now) ∧ q.state.is_lifted = false ∧
        q.state.is_dragging = false ∧
        dist2 q.state.pos_x q.state.pos_y q.state.last_touch.pos_x q.state.last_touch.pos_y
          ≥ MIN_DRAG_DISTANCE_SQ ∧
        q.state.last_touch.key ≠ some EvKey.KEY_NUMLOCK) ∨
      (e = Event.fingerUp ∧ q.state.is_dragging = false ∧ q.holding_key = none ∧
        default_numpad_layout.get_item q.state.pos_x q.state.pos_y
          = some EvKey.KEY_NUMLOCK ∧
        q.state.is_active = true)) ∧
    (∀ (q : NumberPad) (e : Event), Effect.grab ∈ (handle_touchpad_event q e).2 →
      ((∃ now, e = Event.fingerDown now) ∧ q.state.is_dragging = false ∧
        q.state.is_active = true ∧
        (default_numpad_layout.get_item q.state.pos_x q.state.pos_y).isSome = true) ∨
      (e = Event.fingerUp ∧ q.state.is_dragging = true ∧ q.state.is_active = true ∧
        q.state.last_touch.key = some EvKey.KEY_NUMLOCK)) := by
  refine ⟨?_, ?_, ?_⟩
  · intro p k h1 h2 h3 h4 h5 h6
    have hmain : handle_touchpad_event p Event.fingerUp =
        ({ p with state := { p.state with is_lifted := true } },
          [Effect.keysDown [k], Effect.keysUp [k]]) := by
      simp only [handle_touchpad_event, lift, h1, h2, h3, h5]
      cases k <;> simp_all
    exact ⟨hmain, by rw [hmain]; exact h4⟩
  · intro q e hmem
    cases e with
    | absX v => simp [handle_touchpad_event] at hmem
    | absY v => simp [handle_touchpad_event] at hmem
    | other => simp [handle_touchpad_event] at hmem
    | fingerDown now =>
      simp only [handle_touchpad_event] at hmem
      split at hmem
      · simp at hmem
      · split at hmem <;> simp at hmem
    | fingerUp =>
      simp only [handle_touchpad_event, lift, stop_holding_key] at hmem
      split at hmem
      · split at hmem
        · repeat' split at hmem
          all_goals simp at hmem
        · simp at hmem
      · split at hmem
        · split at hmem <;> simp at hmem
        · split at hmem
          · split at hmem
            · simp at hmem
            · refine Or.inr ⟨rfl, ?_, ?_, ?_, ?_⟩ <;> simp_all
          · rename_i hkey heq
            split at hmem
            · simp at hmem
            · simp at hmem
          · simp at hmem
    | tick now =>
      simp only [handle_touchpad_event, stop_holding_key] at hmem
      split at hmem
      · simp at hmem
      · split at hmem
        · rename_i hlift hcond
          by_cases hk : q.state.last_touch.key = some EvKey.KEY_NUMLOCK
          · simp [hk, stop_holding_key] at hmem
            split at hmem <;> simp at hmem
          · refine Or.inl ⟨⟨now, rfl⟩, ?_, ?_, ?_, hk⟩ <;> simp_all
        · split at hmem
          · split at hmem
            · split at hmem <;> simp at hmem
            · simp at hmem
          · simp at hmem
  · intro q e hmem
    cases e with
    | absX v => simp [handle_touchpad_event] at hmem
    | absY v => simp [handle_touchpad_event] at hmem
    | other => simp [handle_touchpad_event] at hmem
    | fingerDown now =>
      simp only [handle_touchpad_event] at hmem
      split at hmem
      · simp at hmem
      · split at hmem
        · rename_i hdrag hcond
          refine Or.inl ⟨⟨now, rfl⟩, ?_, ?_, ?_⟩ <;> simp_all
        · simp at hmem
    | fingerUp =>
      simp only [handle_touchpad_event, lift, stop_holding_key] at hmem
      split at hmem
      · split at hmem
        · rename_i hdrag hcond
          refine Or.inr ⟨rfl, ?_, ?_, ?_⟩ <;> simp_all
        · simp at hmem
      · split at hmem
        · split at hmem <;> simp at hmem
        · split at hmem
          · split at hmem <;> simp at hmem
          · split at hmem <;> simp at hmem
          · simp at hmem
    | tick now =>
      simp only [handle_touchpad_event, stop_holding_key] at hmem
      split at hmem
      · simp at hmem
      · split at hmem
        · split at hmem
          · split at hmem <;> simp at hmem
          · split at hmem <;> simp at hmem
        · split at hmem
          · split at hmem
            · split at hmem <;> simp at hmem
            · simp at hmem
          · simp at hmem

/-- A reachable state mid-contact on key 7: active, grabbed, not dragging,
nothing held. -/
def tapPad : NumberPad :=
  { state :=
    { pos_x := 400
      pos_y := 400
      last_touch := { pos_x := 400, pos_y := 400, time := 1000, key := some EvKey.KEY_7 }
      is_active := true
      is_dragging := false
      is_lifted := false }
    holding_key := none
    brightness := 7
    grabbed := true }

/-- A state mid-contact on key 7 whose finger has moved 100 units in x, so
the next tick reclassifies the contact as a (non-Toggle) drag and ungrabs. -/
def dragEntryPad : NumberPad :=
  { state :=
    { pos_x := 500
      pos_y := 400
      last_touch := { pos_x := 400, pos_y := 400, time := 1000, key := some EvKey.KEY_7 }
      is_active := true
      is_dragging := false
      is_lifted := false }
    holding_key := none
    brightness := 7
    grabbed := true }

/-- Witness for the amended C2: the plain-tap lift at `tapPad` keeps the
grab, the ungrab emitted by the drag-entry tick at `dragEntryPad` satisfies
the only-when conditions of part two, and the grab emitted by the
contact-down at `tapPad` satisfies the only-when conditions of part three. -/
theorem claim_C2_amended_grab_retained_witness :
    (handle_touchpad_event tapPad Event.fingerUp =
      ({ tapPad with state := { tapPad.state with is_lifted := true } },
        [Effect.keysDown [EvKey.KEY_7], Effect.keysUp [EvKey.KEY_7]]) ∧
     (handle_touchpad_event tapPad Event.fingerUp).1.grabbed = true) ∧
    (((∃ now, (Event.tick 1100 : Event) = Event.tick now) ∧
        dragEntryPad.state.is_lifted = false ∧
        dragEntryPad.state.is_dragging = false ∧
        dist2 dragEntryPad.state.pos_x dragEntryPad.state.pos_y
          dragEntryPad.state.last_touch.pos_x dragEntryPad.state.last_touch.pos_y
          ≥ MIN_DRAG_DISTANCE_SQ ∧
        dragEntryPad.state.last_touch.key ≠ some EvKey.KEY_NUMLOCK) ∨
      ((Event.tick 1100 : Event) = Event.fingerUp ∧
        dragEntryPad.state.is_dragging = false ∧ dragEntryPad.holding_key = none ∧
        default_numpad_layout.get_item dragEntryPad.state.pos_x dragEntryPad.state.pos_y
          = some EvKey.KEY_NUMLOCK ∧
        dragEntryPad.state.is_active = true)) ∧
    (((∃ now, (Event.fingerDown 2000 : Event) = Event.fingerDown now) ∧
        tapPad.state.is_dragging = false ∧ tapPad.state.is_active = true ∧
        (default_numpad_layout.get_item tapPad.state.pos_x tapPad.state.pos_y).isSome
          = true) ∨
      ((Event.fingerDown 2000 : Event) = Event.fingerUp ∧
        tapPad.state.is_dragging = true ∧ tapPad.state.is_active = true ∧
        tapPad.state.last_touch.key = some EvKey.KEY_NUMLOCK)) :=
  ⟨claim_C2_amended_grab_retained.1 tapPad EvKey.KEY_7 rfl rfl rfl rfl
      (by decide) (by decide),
   claim_C2_amended_grab_retained.2.1 dragEntryPad (Event.tick 1100) (by decide),
   claim_C2_amended_grab_retained.2.2 tapPad (Event.fingerDown 2000) (by decide)⟩

/-- Reachable state: numpad activated by a Toggle tap, then a contact resting
on the Toggle Key region since time 1000 with no movement. -/
def numlockHoldStart : NumberPad :=
  (runEvents NumberPad.init
    [Event.absX 3100, Event.absY 400, Event.fingerDown 0, Event.fingerUp,
     Event.fingerDown 1000]).1

/-- Counterexample to C4: at `numlockHoldStart` a tick at time 1251 enters
Holding with the Toggle Key as candidate (elapsed 251 ms > 250 ms, no drag);
the claim says nothing changes, but the code records the Toggle Key in
`holding_key` before matching on it. -/
theorem claim_C4_counterexample :
    numlockHoldStart.holding_key = none ∧
    numlockHoldStart.state.is_active = true ∧
    numlockHoldStart.state.is_dragging = false ∧
    numlockHoldStart.state.is_lifted = false ∧
    numlockHoldStart.state.last_touch.key = some EvKey.KEY_NUMLOCK ∧
    1251 - numlockHoldStart.state.last_touch.time > HOLD_DURATION ∧
    (handle_touchpad_event numlockHoldStart (Event.tick 1251)).1.holding_key
      = some EvKey.KEY_NUMLOCK := by
  decide

/-- C4 amended: when a tick enters Holding with the Toggle Key as candidate,
no key event (and no other effect) is emitted and no field changes except
`holding_key`, which is set to the Toggle Key. -/
theorem claim_C4_amended_numlock_hold (p : NumberPad) (now : Nat)
    (h1 : p.state.is_lifted = false) (h2 : p.state.is_dragging = false)
    (h3 : ¬(dist2 p.state.pos_x p.state.pos_y p.state.last_touch.pos_x p.state.last_touch.pos_y
      ≥ MIN_DRAG_DISTANCE_SQ))
    (h4 : p.state.is_active = true)
    (h5 : now - p.state.last_touch.time > HOLD_DURATION)
    (h6 : p.holding_key = none)
    (h7 : p.state.last_touch.key = some EvKey.KEY_NUMLOCK) :
    handle_touchpad_event p (Event.tick now) =
      ({ p with holding_key := some EvKey.KEY_NUMLOCK }, []) := by
  simp [handle_touchpad_event, h1, h2, h3, h4, h5, h6, h7]

/-- Witness for the amended C4 at `numlockHoldStart`. -/
theorem claim_C4_amended_numlock_hold_witness :
    handle_touchpad_event numlockHoldStart (Event.tick 1251) =
      ({ numlockHoldStart with holding_key := some EvKey.KEY_NUMLOCK }, []) :=
  claim_C4_amended_numlock_hold numlockHoldStart 1251 (by decide) (by decide) (by decide)
    (by decide) (by decide) (by decide) (by decide)

/-- Reachable state: active contact on digit key 5 whose hold has already
fired (`holding_key = some KEY_5`, one `keys_down([5])` emitted at tick 1300),
after which the finger moved 100 units in x. -/
def holdThenDragStart : NumberPad :=
  (runEvents NumberPad.init
    [Event.absX 3100, Event.absY 400, Event.fingerDown 0, Event.fingerUp,
     Event.absX 1000, Event.absY 1000, Event.fingerDown 1000,
     Event.tick 1300, Event.absX 1100]).1

/-- Counterexample to C5: at `holdThenDragStart` the drag-entry condition
fires on the next tick while a hold is pending, and the tick emits a key-up
for the held key — the claim says the pending hold is cleared without
emitting a key-up. -/
theorem claim_C5_counterexample :
    holdThenDragStart.holding_key = some EvKey.KEY_5 ∧
    holdThenDragStart.state.is_dragging = false ∧
    holdThenDragStart.state.is_lifted = false ∧
    dist2 holdThenDragStart.state.pos_x holdThenDragStart.state.pos_y
      holdThenDragStart.state.last_touch.pos_x holdThenDragStart.state.last_touch.pos_y
      ≥ MIN_DRAG_DISTANCE_SQ ∧
    (handle_touchpad_event holdThenDragStart (Event.tick 1310)).1.state.is_dragging = true ∧
    (handle_touchpad_event holdThenDragStart (Event.tick 1310)).2 =
      [Effect.ungrab, Effect.keysUp [EvKey.KEY_5]] := by
  decide

/-- C5 amended: when a tick transitions from Touching into Dragging,
`holding_key` is cleared through `stop_holding_key`: if a hold was already in
progress a key-up for the held key is emitted, and only if no hold had fired
is nothing emitted (besides the ungrab for a non-Toggle candidate). -/
theorem claim_C5_amended_drag_entry_stops_hold (p : NumberPad) (now : Nat)
    (h1 : p.state.is_lifted = false) (h2 : p.state.is_dragging = false)
    (h3 : dist2 p.state.pos_x p.state.pos_y p.state.last_touch.pos_x p.state.last_touch.pos_y
      ≥ MIN_DRAG_DISTANCE_SQ) :
    (handle_touchpad_event p (Event.tick now)).1.state.is_dragging = true ∧
    (handle_touchpad_event p (Event.tick now)).1.holding_key = none ∧
    (handle_touchpad_event p (Event.tick now)).2 =
      (if p.state.last_touch.key ≠ some EvKey.KEY_NUMLOCK then [Effect.ungrab] else []) ++
        (match p.holding_key with
          | some k => [Effect.keysUp [k]]
          | none => []) := by
  simp only [handle_touchpad_event, stop_holding_key, h1, h2, h3]
  repeat' split
  all_goals simp_all

/-- Witness for the amended C5 at `holdThenDragStart`: the drag-entry tick
ungrabs and emits the key-up for the held key 5. -/
theorem claim_C5_amended_drag_entry_stops_hold_witness :
    (handle_touchpad_event holdThenDragStart (Event.tick 1310)).1.state.is_dragging = true ∧
    (handle_touchpad_event holdThenDragStart (Event.tick 1310)).1.holding_key = none ∧
    (handle_touchpad_event holdThenDragStart (Event.tick 1310)).2 =
      [Effect.ungrab, Effect.keysUp [EvKey.KEY_5]] := by
  have h := claim_C5_amended_drag_entry_stops_hold holdThenDragStart 1310
    (by decide) (by decide) (by decide)
  exact ⟨h.1, h.2.1, by rw [h.2.2]; decide⟩

/-- Reachable state: active contact resting on digit key 5 since time 1000
with no movement and no hold fired yet. -/
def holdBoundaryStart : NumberPad :=
  (runEvents NumberPad.init
    [Event.absX 3100, Event.absY 400, Event.fingerDown 0, Event.fingerUp,
     Event.absX 1000, Event.absY 1000, Event.fingerDown 1000]).1

/-- Counterexample to C6: at `holdBoundaryStart` a tick with elapsed time
exactly `HOLD_DURATION` (250 ms) does nothing — no hold starts, because the
source compares with strict `>`; the claim says the boundary is inclusive. -/
theorem claim_C6_counterexample :
    holdBoundaryStart.state.is_active = true ∧
    holdBoundaryStart.state.is_dragging = false ∧
    holdBoundaryStart.state.is_lifted = false ∧
    holdBoundaryStart.holding_key = none ∧
    holdBoundaryStart.state.last_touch.key = some EvKey.KEY_5 ∧
    1250 - holdBoundaryStart.state.last_touch.time = HOLD_DURATION ∧
    handle_touchpad_event holdBoundaryStart (Event.tick 1250) = (holdBoundaryStart, []) := by
  decide

/-- C6 amended: the hold boundary is exclusive: on a tick while Touching with
a non-Toggle candidate key, elapsed time exactly equal to the hold duration
yields no hold and no effect, and a hold (key-down emitted and the key
recorded) requires elapsed time strictly greater than the hold duration. -/
theorem claim_C6_amended_hold_boundary_exclusive (p : NumberPad) (now : Nat) (k : EvKey)
    (h1 : p.state.is_lifted = false) (h2 : p.state.is_dragging = false)
    (h3 : ¬(dist2 p.state.pos_x p.state.pos_y p.state.last_touch.pos_x p.state.last_touch.pos_y
      ≥ MIN_DRAG_DISTANCE_SQ))
    (h4 : p.state.is_active = true) (h5 : p.holding_key = none)
    (h6 : p.state.last_touch.key = some k) (h7 : k ≠ EvKey.KEY_NUMLOCK) :
    (now - p.state.last_touch.time = HOLD_DURATION →
      handle_touchpad_event p (Event.tick now) = (p, [])) ∧
    (now - p.state.last_touch.time > HOLD_DURATION →
      handle_touchpad_event p (Event.tick now) =
        ({ p with holding_key := some k }, [Effect.keysDown [k]])) := by
  constructor
  · intro h
    simp [handle_touchpad_event, h1, h2, h3, h4, h5, h6, h]
  · intro h
    simp only [handle_touchpad_event, h1, h2, h3, h4, h5, h6, h]
    cases k <;> simp_all

/-- Witness for the amended C6 at `holdBoundaryStart`: a tick at 1250 (exact
boundary) does nothing, a tick at 1251 starts the hold of key 5. -/
theorem claim_C6_amended_hold_boundary_exclusive_witness :
    handle_touchpad_event holdBoundaryStart (Event.tick 1250) = (holdBoundaryStart, []) ∧
    handle_touchpad_event holdBoundaryStart (Event.tick 1251) =
      ({ holdBoundaryStart with holding_key := some EvKey.KEY_5 },
        [Effect.keysDown [EvKey.KEY_5]]) :=
  ⟨(claim_C6_amended_hold_boundary_exclusive holdBoundaryStart 1250 EvKey.KEY_5
      (by decide) (by decide) (by decide) (by decide) (by decide) (by decide) (by decide)).1
      (by decide),
   (claim_C6_amended_hold_boundary_exclusive holdBoundaryStart 1251 EvKey.KEY_5
      (by decide) (by decide) (by decide) (by decide) (by decide) (by decide) (by decide)).2
      (by decide)⟩

/-- C3: for every sequence of events applied from the initial state, after
each event is fully processed `is_dragging` and `holding_key.isSome` are
never both true (every intermediate point is the final state of a prefix of
the sequence). -/
theorem claim_C3_drag_hold_exclusion (evs : List Event) :
    ((runEvents NumberPad.init evs).1.state.is_dragging &&
      (runEvents NumberPad.init evs).1.holding_key.isSome) = false := by
  have h := dragHoldExclusive_run evs NumberPad.init rfl
  unfold dragHoldExclusive at h
  cases hb : ((runEvents NumberPad.init evs).1.state.is_dragging &&
      (runEvents NumberPad.init evs).1.holding_key.isSome)
  · rfl
  · rw [hb] at h
    simp at h


